import Mathlib

/-!
# Shallow embedding of the DX-Ball clone (`21201172.cpp`)

This file models the game's data and update logic in Lean 4 and proves
properties of that model.  Conventions used in the translation:

* C `float`/`double` arithmetic is idealized as real arithmetic (`ℝ`);
  decimal literals such as `0.25f` denote the corresponding exact rationals.
* The C global mutable state (the globals of Parts 2–3 of the source) is
  gathered in one `World` structure; every C function that mutates globals
  becomes a `World → World` function.
* The process-global PRNG (`rand()`) is modelled as an oracle stream of
  natural numbers carried in the state (`World.rng`); each call to `rand()`
  consumes the head of the stream.  Values are reduced modulo `RAND_MAX + 1`
  (32768 on the targeted Windows toolchain) where the source divides by
  `RAND_MAX + 1.0f`.
* File persistence (`scores.txt`, `highscore.txt`) is modelled by keeping the
  file contents in the state: `World.recentScores` holds the contents of the
  recent-scores file and `World.highScore` mirrors the high-score file /
  global.  Wall-clock reads (`glutGet(GLUT_ELAPSED_TIME)`, used only for the
  HUD elapsed-time display and pause bookkeeping) are environment reads with
  no effect on any other state and are omitted.
* `exit(0)` (ESC from the menu) is modelled by the `World.exited` flag.
-/

namespace DXBall

noncomputable section

/-- The `GameState` enum of the source (line 42). -/
inductive GameState where
  | GS_MENU | GS_PLAYING | GS_PAUSED | GS_LEVEL_CLEAR | GS_GAMEOVER
  | GS_HELP | GS_SCOREBOARD | GS_MUSIC_MENU
deriving DecidableEq, Repr

open GameState

/-- `struct Ball` (source line 48). -/
structure Ball where
  x : ℝ
  y : ℝ
  vx : ℝ
  vy : ℝ
  radius : ℝ
  speed : ℝ
  stuck : Bool
  isFireball : Bool
  fireballTimer : ℝ
deriving Inhabited

/-- `struct Paddle` (source line 54). -/
structure Paddle where
  x : ℝ
  y : ℝ
  w : ℝ
  h : ℝ
  speed : ℝ
deriving Inhabited

/-- `struct Brick` (source line 55). -/
structure Brick where
  x : ℝ
  y : ℝ
  w : ℝ
  h : ℝ
  hits : ℤ
  alive : Bool
  type : ℤ
deriving Inhabited

/-- `struct Perk` (source line 56). -/
structure Perk where
  x : ℝ
  y : ℝ
  vy : ℝ
  type : ℤ
  alive : Bool
deriving Inhabited

/-- `struct Projectile` (source line 57). -/
structure Projectile where
  x : ℝ
  y : ℝ
  vy : ℝ
  alive : Bool
deriving Inhabited

/-- All mutable globals of the source program in one record. -/
structure World where
  gameState : GameState
  currentLevel : ℤ
  ball : Ball
  paddle : Paddle
  bricks : List Brick
  perks : List Perk
  projectiles : List Projectile
  score : ℤ
  lives : ℤ
  highScore : ℤ
  bricksRemaining : ℤ
  fireCooldown : ℝ
  keyLeft : Bool
  keyRight : Bool
  musicPlaying : Bool
  recentScores : List ℤ
  rng : List ℕ
  exited : Bool

/-- `WIN_W` (source line 32). -/
def WIN_W : ℝ := 800

/-- `WIN_H` (source line 33). -/
def WIN_H : ℝ := 600

/-- `MAX_RECENT` (source line 35). -/
def MAX_RECENT : ℕ := 5

/-- `PERK_DROP_PROB` (source line 73). -/
def PERK_DROP_PROB : ℝ := 0.25

/-- `BALL_SPEED_MAX` (source line 74). -/
def BALL_SPEED_MAX : ℝ := 900

/-- `BALL_SPEED_INCREASE_RATE` (source line 75). -/
def BALL_SPEED_INCREASE_RATE : ℝ := 5

/-- `FIRE_RATE` (source line 71). -/
def FIRE_RATE : ℝ := 0.3

/-- Consume one `rand()` draw from the oracle stream. -/
def randNext (rng : List ℕ) : ℕ × List ℕ := (rng.headI, rng.tail)

/-- `resetPaddleAndBall` (source lines 124–139). -/
def resetPaddleAndBall (w : World) : World :=
  let paddle : Paddle :=
    { w := 120, h := 16, x := (WIN_W - 120) / 2, y := 50, speed := 600 }
  let ball : Ball :=
    { radius := 8
      x := paddle.x + paddle.w / 2
      y := paddle.y + paddle.h + 8 + 1
      speed := 380
      vx := 0, vy := 0
      stuck := true
      isFireball := false
      fireballTimer := 0 }
  { w with paddle := paddle, ball := ball }

/-- The tough-brick roll of `createBricksForLevel` (source line 159):
`b.hits = ((rand()%100) < (std::max(0, level - 1) * 15)) ? 2 : 1`. -/
def brickHitsOf (level : ℤ) (draw : ℕ) : ℤ :=
  if ((draw % 100 : ℕ) : ℤ) < max 0 (level - 1) * 15 then 2 else 1

/-- The perk-type roll of `createBricksForLevel` (source line 161):
`b.type = ((rand()/(RAND_MAX+1.0f)) < (PERK_DROP_PROB + 0.02f*(level-1))) ? 1 : 0`. -/
def brickTypeOf (level : ℤ) (draw : ℕ) : ℤ :=
  if ((draw % 32768 : ℕ) : ℝ) / 32768 < PERK_DROP_PROB + 0.02 * ((level : ℝ) - 1)
  then 1 else 0

/-- The nested brick-building loop of `createBricksForLevel`
(source lines 153–165), iterated over the row/column index list; consumes
two `rand()` draws per brick (hit roll then type roll). -/
def buildBricks (level : ℤ) (brickW brickH startY margin gap : ℝ) :
    List (ℕ × ℕ) → List ℕ → List Brick × List ℕ
  | [], rng => ([], rng)
  | (r, c) :: rest, rng =>
    let (d1, rng1) := randNext rng
    let (d2, rng2) := randNext rng1
    let b : Brick :=
      { w := brickW, h := brickH
        x := margin + (c : ℝ) * (brickW + gap)
        y := startY - (r : ℝ) * (brickH + gap)
        hits := brickHitsOf level d1
        alive := true
        type := brickTypeOf level d2 }
    let (bs, rng3) := buildBricks level brickW brickH startY margin gap rest rng2
    (b :: bs, rng3)

/-- Row-major list of `(row, column)` indices for a grid. -/
def gridIndices (rows cols : ℕ) : List (ℕ × ℕ) :=
  (List.range rows).flatMap fun r => (List.range cols).map fun c => (r, c)

/-- `createBricksForLevel` (source lines 141–168).  `bricksRemaining` is
incremented once per `push_back`, i.e. it ends up equal to the length of the
brick list built. -/
def createBricksForLevel (level : ℤ) (w : World) : World :=
  let rows : ℤ := min (3 + level) 8
  let cols : ℕ := 10
  let margin : ℝ := 60
  let gap : ℝ := 6
  let brickW : ℝ := (WIN_W - 2 * margin - ((cols : ℝ) - 1) * gap) / (cols : ℝ)
  let brickH : ℝ := 22
  let startY : ℝ := WIN_H - 100
  let (bs, rng') := buildBricks level brickW brickH startY margin gap
      (gridIndices rows.toNat cols) w.rng
  let sp : ℝ := 380 + ((level : ℝ) - 1) * 30
  { w with
      bricks := bs
      perks := []
      projectiles := []
      bricksRemaining := (bs.length : ℤ)
      rng := rng'
      ball := { w.ball with speed := if sp > BALL_SPEED_MAX then BALL_SPEED_MAX else sp } }

/-- `startNewGame` (source lines 170–178). -/
def startNewGame (w : World) : World :=
  let w1 := { w with currentLevel := 1, score := 0, lives := 3 }
  let w2 := resetPaddleAndBall (createBricksForLevel 1 w1)
  { w2 with gameState := GS_PLAYING }

/-- `startLevel` (source lines 180–186). -/
def startLevel (level : ℤ) (w : World) : World :=
  let w1 := resetPaddleAndBall (createBricksForLevel level w)
  { w1 with gameState := GS_PLAYING }

/-- `saveScore` (source lines 385–391): prepend the score to the file
contents and truncate to `MAX_RECENT` entries. -/
def saveScore (w : World) : World :=
  let scores := w.score :: w.recentScores
  { w with recentScores :=
      if scores.length > MAX_RECENT then scores.take MAX_RECENT else scores }

/-- `saveHighScore` (source lines 400–406): overwrite only on improvement. -/
def saveHighScore (w : World) : World :=
  if w.score > w.highScore then { w with highScore := w.score } else w

/-- The game-over sequence shared by `updateGame` and `applyPerk`
(source lines 214–216 and 360–362): persist the score, update the high
score, switch to `GS_GAMEOVER`. -/
def gameOverSave (w : World) : World :=
  { saveHighScore (saveScore w) with gameState := GS_GAMEOVER }

/-- `spawnPerk` (source lines 193–203): consumes one `rand()` draw and
appends a falling perk with type chosen by the cumulative thresholds. -/
def spawnPerk (x y : ℝ) (w : World) : World :=
  let (d, rng') := randNext w.rng
  let t : ℕ := d % 100
  let ty : ℤ :=
    if t < 35 then 0
    else if t < 65 then 1
    else if t < 80 then 2
    else if t < 90 then 3
    else if t < 97 then 4
    else 5
  { w with rng := rng'
           perks := w.perks ++ [{ x := x, y := y, vy := -150, type := ty, alive := true }] }

/-- `applyPerk` (source lines 205–222).  Returns the consumed perk
(`alive := false`) together with the updated world. -/
def applyPerk (p : Perk) (w : World) : Perk × World :=
  let w' :=
    if p.type = 0 then { w with lives := w.lives + 1 }
    else if p.type = 1 then
      let pw := w.paddle.w + 40
      { w with paddle := { w.paddle with w := if pw > 280 then 280 else pw } }
    else if p.type = 2 then
      let sp := w.ball.speed * 1.15
      { w with ball := { w.ball with speed := if sp > BALL_SPEED_MAX then BALL_SPEED_MAX else sp } }
    else if p.type = 3 then
      { w with ball := { w.ball with isFireball := true, fireballTimer := 10 } }
    else if p.type = 4 then
      let pw := w.paddle.w - 30
      { w with paddle := { w.paddle with w := if pw < 40 then 40 else pw } }
    else if p.type = 5 then
      let w1 := { w with lives := w.lives - 1 }
      if w1.lives ≤ 0 then gameOverSave w1 else resetPaddleAndBall w1
    else w
  ({ p with alive := false }, w')

/-- `launchBall` (source lines 229–235): consumes one `rand()` draw for the
launch angle. -/
def launchBall (w : World) : World :=
  if w.ball.stuck = false then w
  else
    let (d, rng') := randNext w.rng
    let angle : ℝ := Real.pi / 3 + (((d % 100 : ℕ) : ℝ) - 50) * 0.004
    { w with rng := rng'
             ball := { w.ball with
                         stuck := false
                         vx := w.ball.speed * Real.cos angle
                         vy := w.ball.speed * Real.sin angle } }

/-- `normalizeBallVelocity` (source lines 237–243). -/
def normalizeBallVelocity (w : World) : World :=
  let vmag := Real.sqrt (w.ball.vx * w.ball.vx + w.ball.vy * w.ball.vy)
  if vmag > 0.0001 then
    { w with ball := { w.ball with
                         vx := w.ball.vx * (w.ball.speed / vmag)
                         vy := w.ball.vy * (w.ball.speed / vmag) } }
  else w

/-- `bounceBallOffPaddle` (source lines 245–251). -/
def bounceBallOffPaddle (w : World) : World :=
  let rel := (w.ball.x - (w.paddle.x + w.paddle.w * 0.5)) / (w.paddle.w * 0.5)
  let angle : ℝ := Real.pi / 2 + rel * (75 * Real.pi / 180)
  { w with ball := { w.ball with
                       y := w.paddle.y + w.paddle.h + w.ball.radius + 1
                       vx := w.ball.speed * Real.cos angle
                       vy := w.ball.speed * Real.sin angle } }

/-- `handleWallCollisions` (source lines 253–257): three sequential clamps,
each testing the state left by the previous one. -/
def handleWallCollisions (w : World) : World :=
  let w1 :=
    if w.ball.x - w.ball.radius ≤ 0 then
      { w with ball := { w.ball with x := w.ball.radius, vx := -w.ball.vx } }
    else w
  let w2 :=
    if w1.ball.x + w1.ball.radius ≥ WIN_W then
      { w1 with ball := { w1.ball with x := WIN_W - w1.ball.radius, vx := -w1.ball.vx } }
    else w1
  if w2.ball.y + w2.ball.radius ≥ WIN_H then
    { w2 with ball := { w2.ball with y := WIN_H - w2.ball.radius, vy := -w2.ball.vy } }
  else w2

/-- `handlePaddleCollision` (source lines 259–263). -/
def handlePaddleCollision (w : World) : World :=
  if w.ball.vy < 0 ∧ w.ball.x + w.ball.radius > w.paddle.x ∧
      w.ball.x - w.ball.radius < w.paddle.x + w.paddle.w ∧
      w.ball.y - w.ball.radius < w.paddle.y + w.paddle.h ∧
      w.ball.y + w.ball.radius > w.paddle.y then
    bounceBallOffPaddle w
  else w

/-- The ball/brick AABB overlap test of `handleBrickCollisions`
(source line 268). -/
def ballHitsBrick (ball : Ball) (b : Brick) : Bool :=
  decide (ball.x + ball.radius > b.x) && decide (ball.x - ball.radius < b.x + b.w) &&
  decide (ball.y + ball.radius > b.y) && decide (ball.y - ball.radius < b.y + b.h)

/-- The fireball branch of `handleBrickCollisions` (source lines 269–271):
destroy the brick outright, no bounce. -/
def fireballDestroy (b : Brick) (w : World) : World :=
  let w1 := { w with bricksRemaining := w.bricksRemaining - 1, score := w.score + 10 }
  if b.type = 1 then spawnPerk (b.x + b.w / 2) (b.y + b.h / 2) w1 else w1

/-- The non-fireball branch of `handleBrickCollisions`
(source lines 272–283): reflect on the minimum-penetration axis, decrement
the hit count, destroy/score.  Returns the updated brick and world. -/
def hitBrick (b : Brick) (w : World) : Brick × World :=
  let overlapX := (b.w / 2 + w.ball.radius) - |w.ball.x - (b.x + b.w / 2)|
  let overlapY := (b.h / 2 + w.ball.radius) - |w.ball.y - (b.y + b.h / 2)|
  let ball1 :=
    if overlapX < overlapY then { w.ball with vx := -w.ball.vx }
    else { w.ball with vy := -w.ball.vy }
  let hits' := b.hits - 1
  if hits' ≤ 0 then
    let w1 := { w with ball := ball1, bricksRemaining := w.bricksRemaining - 1,
                       score := w.score + 10 }
    let w2 := if b.type = 1 then spawnPerk (b.x + b.w / 2) (b.y + b.h / 2) w1 else w1
    ({ b with hits := hits', alive := false }, w2)
  else
    ({ b with hits := hits' }, { w with ball := ball1, score := w.score + 5 })

/-- The brick loop of `handleBrickCollisions` (source lines 265–287).
Dead or non-overlapping bricks are skipped; a fireball destroys every
overlapping brick and keeps going; a normal ball processes the first
overlapping brick and `break`s (the rest of the list is returned as is). -/
def brickLoop (w : World) : List Brick → List Brick × World
  | [] => ([], w)
  | b :: rest =>
    if b.alive = false then
      let (rest', w') := brickLoop w rest
      (b :: rest', w')
    else if ballHitsBrick w.ball b then
      if w.ball.isFireball then
        let (rest', w') := brickLoop (fireballDestroy b w) rest
        ({ b with alive := false } :: rest', w')
      else
        let (b', w') := hitBrick b w
        (b' :: rest, w')
    else
      let (rest', w') := brickLoop w rest
      (b :: rest', w')

/-- `handleBrickCollisions` (source lines 265–287). -/
def handleBrickCollisions (w : World) : World :=
  let (bs, w') := brickLoop w w.bricks
  { w' with bricks := bs }

/-- The perk-catch test of `handlePerks` (source line 294). -/
def perkCaught (p : Perk) (pad : Paddle) : Bool :=
  decide (p.x > pad.x) && decide (p.x < pad.x + pad.w) &&
  decide (p.y < pad.y + pad.h) && decide (p.y > pad.y)

/-- The per-perk movement/despawn step of `handlePerks`
(source lines 292–293): fall by `vy*dt`, despawn below `y = −40`. -/
def perkMove (dt : ℝ) (p : Perk) : Perk :=
  let p1 := { p with y := p.y + p.vy * dt }
  if p1.y < -40 then { p1 with alive := false } else p1

/-- The perk loop of `handlePerks` (source lines 289–298): move each live
perk, despawn below the playfield, apply on paddle catch. -/
def perkLoop (dt : ℝ) (w : World) : List Perk → List Perk × World
  | [] => ([], w)
  | p :: rest =>
    if p.alive = false then
      let (rest', w') := perkLoop dt w rest
      (p :: rest', w')
    else
      let p2 := perkMove dt p
      if perkCaught p2 w.paddle then
        let (p3, w1) := applyPerk p2 w
        let (rest', w') := perkLoop dt w1 rest
        (p3 :: rest', w')
      else
        let (rest', w') := perkLoop dt w rest
        (p2 :: rest', w')

/-- `handlePerks` (source lines 289–298). -/
def handlePerks (dt : ℝ) (w : World) : World :=
  let (ps, w') := perkLoop dt w w.perks
  { w' with perks := ps }

/-- The projectile/brick overlap test of `handleProjectiles`
(source line 307). -/
def projHitsBrick (p : Projectile) (b : Brick) : Bool :=
  decide (p.x > b.x) && decide (p.x < b.x + b.w) &&
  decide (p.y > b.y) && decide (p.y < b.y + b.h)

/-- The inner brick loop of `handleProjectiles` (source lines 306–315):
damage the first live overlapping brick, consume the projectile, `break`. -/
def projBrickLoop (p : Projectile) (w : World) : List Brick → List Brick × Projectile × World
  | [] => ([], p, w)
  | b :: rest =>
    if b.alive = true && projHitsBrick p b then
      let p' := { p with alive := false }
      let hits' := b.hits - 1
      if hits' ≤ 0 then
        let w1 := { w with bricksRemaining := w.bricksRemaining - 1, score := w.score + 10 }
        let w2 := if b.type = 1 then spawnPerk (b.x + b.w / 2) (b.y + b.h / 2) w1 else w1
        ({ b with hits := hits', alive := false } :: rest, p', w2)
      else
        ({ b with hits := hits' } :: rest, p', { w with score := w.score + 5 })
    else
      let (rest', p', w') := projBrickLoop p w rest
      (b :: rest', p', w')

/-- The per-projectile movement/despawn step of `handleProjectiles`
(source lines 303–304): rise by `vy*dt`, despawn above the playfield top. -/
def projMove (dt : ℝ) (p : Projectile) : Projectile :=
  let p1 := { p with y := p.y + p.vy * dt }
  if p1.y > WIN_H then { p1 with alive := false } else p1

/-- The projectile loop of `handleProjectiles` (source lines 300–318). -/
def projLoop (dt : ℝ) (w : World) : List Projectile → List Projectile × World
  | [] => ([], w)
  | p :: rest =>
    if p.alive = false then
      let (rest', w') := projLoop dt w rest
      (p :: rest', w')
    else
      let p2 := projMove dt p
      let (bs, p3, w1) := projBrickLoop p2 w w.bricks
      let (rest', w') := projLoop dt { w1 with bricks := bs } rest
      (p3 :: rest', w')

/-- `handleProjectiles` (source lines 300–318). -/
def handleProjectiles (dt : ℝ) (w : World) : World :=
  let (ps, w') := projLoop dt w w.projectiles
  { w' with projectiles := ps }

/-- `increaseBallSpeedOverTime` (source lines 325–331). -/
def increaseBallSpeedOverTime (dt : ℝ) (w : World) : World :=
  if w.ball.stuck = false then
    let sp := w.ball.speed + BALL_SPEED_INCREASE_RATE * dt
    normalizeBallVelocity
      { w with ball := { w.ball with
          speed := if sp > BALL_SPEED_MAX then BALL_SPEED_MAX else sp } }
  else w

/-- The timer bookkeeping at the top of `updateGame`
(source lines 336–341): fire cooldown and fireball expiry. -/
def tickTimers (dt : ℝ) (w : World) : World :=
  let w1 :=
    if w.fireCooldown > 0 then { w with fireCooldown := w.fireCooldown - dt } else w
  if w1.ball.isFireball then
    let t := w1.ball.fireballTimer - dt
    { w1 with ball := { w1.ball with fireballTimer := t, isFireball := ¬(t ≤ 0) } }
  else w1

/-- The paddle input/clamp step of `updateGame` (source lines 343–347). -/
def movePaddle (dt : ℝ) (w : World) : World :=
  let mv := w.paddle.speed * dt
  let x1 := w.paddle.x - (if w.keyLeft then mv else 0) + (if w.keyRight then mv else 0)
  let x2 := if x1 < 0 then 0 else x1
  let x3 := if x2 + w.paddle.w > WIN_W then WIN_W - w.paddle.w else x2
  { w with paddle := { w.paddle with x := x3 } }

/-- The ball movement step of `updateGame` (source lines 349–354). -/
def moveBall (dt : ℝ) (w : World) : World :=
  if w.ball.stuck then
    { w with ball := { w.ball with x := w.paddle.x + w.paddle.w / 2 } }
  else
    { w with ball := { w.ball with x := w.ball.x + w.ball.vx * dt,
                                   y := w.ball.y + w.ball.vy * dt } }

/-- The phases of `updateGame` up to and including the wall bounce
(source lines 336–356). -/
def tickPre (dt : ℝ) (w : World) : World :=
  handleWallCollisions (moveBall dt (movePaddle dt (tickTimers dt w)))

/-- The ball-miss branch of `updateGame` (source lines 357–367). -/
def missStep (w : World) : World :=
  let w1 := { w with lives := w.lives - 1 }
  if w1.lives ≤ 0 then gameOverSave w1 else resetPaddleAndBall w1

/-- `updateGame` (source lines 333–378). -/
def updateGame (dt : ℝ) (w : World) : World :=
  if w.gameState ≠ GS_PLAYING then w
  else
    let w1 := tickPre dt w
    if w1.ball.y - w1.ball.radius ≤ 0 then missStep w1
    else
      let w6 := increaseBallSpeedOverTime dt
        (handleProjectiles dt (handlePerks dt
          (handleBrickCollisions (handlePaddleCollision w1))))
      if w6.bricksRemaining ≤ 0 then
        { saveScore w6 with gameState := GS_LEVEL_CLEAR }
      else w6

/-- `playMusic` (source lines 431–439), modelled with the optional audio
file present (its absence only suppresses the flag and prints a warning). -/
def playMusic (w : World) : World := { w with musicPlaying := true }

/-- `stopMusic` (source lines 441–444). -/
def stopMusic (w : World) : World := { w with musicPlaying := false }

/-- `mouseClick` (source lines 592–602).  Mouse buttons/button states are
reduced to the one pattern the handler reacts to. -/
inductive MouseButton where
  | leftButton | otherButton
deriving DecidableEq, Repr

/-- GLUT button state (`GLUT_DOWN` / `GLUT_UP`). -/
inductive ButtonState where
  | down | up
deriving DecidableEq, Repr

/-- GLUT special keys used by the program (arrow keys). -/
inductive SpecialKey where
  | leftArrow | rightArrow | otherSpecial
deriving DecidableEq, Repr

/-- `mouseClick` (source lines 592–602). -/
def mouseClick (button : MouseButton) (state : ButtonState) (_x _y : ℤ) (w : World) : World :=
  if button ≠ MouseButton.leftButton ∨ state ≠ ButtonState.down then w
  else if w.gameState = GS_PLAYING then
    if w.fireCooldown ≤ 0 then
      { w with
          projectiles := w.projectiles ++
            [{ x := w.paddle.x + 10, y := w.paddle.y + w.paddle.h, vy := 500, alive := true },
             { x := w.paddle.x + w.paddle.w - 10, y := w.paddle.y + w.paddle.h, vy := 500,
               alive := true }]
          fireCooldown := FIRE_RATE }
    else w
  else w

/-- `passiveMouse` (source lines 604–609).  Note: no clamping of the new
paddle position. -/
def passiveMouse (x _y : ℤ) (w : World) : World :=
  if w.gameState = GS_PLAYING then
    let pad := { w.paddle with x := (x : ℝ) - w.paddle.w * 0.5 }
    let b := if w.ball.stuck then { w.ball with x := pad.x + pad.w * 0.5 } else w.ball
    { w with paddle := pad, ball := b }
  else w

/-- `keyboardDown` (source lines 611–635), with keys as ASCII codes.
`exit(0)` on ESC from the menu is modelled by the `exited` flag. -/
def keyboardDown (key : ℕ) (w : World) : World :=
  if key = 27 then
    if w.gameState = GS_MENU then { w with exited := true }
    else { w with gameState := GS_MENU }
  else if key = 32 then
    if w.gameState = GS_PLAYING ∧ w.ball.stuck = true then launchBall w
    else if w.gameState = GS_LEVEL_CLEAR then
      startLevel (w.currentLevel + 1) { w with currentLevel := w.currentLevel + 1 }
    else if w.gameState = GS_GAMEOVER then startNewGame w
    else w
  else if key = 112 ∨ key = 80 then
    if w.gameState = GS_PLAYING then { w with gameState := GS_PAUSED }
    else if w.gameState = GS_PAUSED then { w with gameState := GS_PLAYING }
    else w
  else if key = 114 ∨ key = 82 then
    if w.gameState = GS_PLAYING ∨ w.gameState = GS_PAUSED then startLevel w.currentLevel w
    else w
  else if key = 97 ∨ key = 65 then { w with keyLeft := true }
  else if key = 100 ∨ key = 68 then { w with keyRight := true }
  else if w.gameState = GS_MENU then
    if key = 49 then startNewGame w
    else if key = 50 then { w with gameState := GS_SCOREBOARD }
    else if key = 51 then { w with gameState := GS_MUSIC_MENU }
    else if key = 52 then { w with gameState := GS_HELP }
    else w
  else if w.gameState = GS_MUSIC_MENU then
    if key = 49 then { playMusic w with gameState := GS_MENU }
    else if key = 50 then { stopMusic w with gameState := GS_MENU }
    else w
  else w

/-- `keyboardUp` (source lines 637–640). -/
def keyboardUp (key : ℕ) (w : World) : World :=
  let w1 := if key = 97 ∨ key = 65 then { w with keyLeft := false } else w
  if key = 100 ∨ key = 68 then { w1 with keyRight := false } else w1

/-- `specialDown` (source lines 642–645). -/
def specialDown (key : SpecialKey) (w : World) : World :=
  let w1 := if key = SpecialKey.leftArrow then { w with keyLeft := true } else w
  if key = SpecialKey.rightArrow then { w1 with keyRight := true } else w1

/-- `specialUp` (source lines 646–649). -/
def specialUp (key : SpecialKey) (w : World) : World :=
  let w1 := if key = SpecialKey.leftArrow then { w with keyLeft := false } else w
  if key = SpecialKey.rightArrow then { w1 with keyRight := false } else w1

/-- One input event, as dispatched by the GLUT callbacks registered in
`main` (source lines 689–696). -/
inductive InputEvent where
  | key (k : ℕ)
  | keyRelease (k : ℕ)
  | special (k : SpecialKey)
  | specialRelease (k : SpecialKey)
  | click (b : MouseButton) (st : ButtonState) (x y : ℤ)
  | motion (x y : ℤ)

/-- Dispatch one input event to the corresponding handler. -/
def handleEvent : InputEvent → World → World
  | .key k, w => keyboardDown k w
  | .keyRelease k, w => keyboardUp k w
  | .special k, w => specialDown k w
  | .specialRelease k, w => specialUp k w
  | .click b st x y, w => mouseClick b st x y w
  | .motion x y, w => passiveMouse x y w

/-- Modelled from the spec (§4.4): the mode transitions the specification
lists, as a predicate on (current mode, input event).  The listed pairs are:
cancel (ESC) from any state; space from LevelClear (advance) and from
GameOver (restart); pause toggle from Playing/Paused; restart-level from
Playing/Paused; the menu digit selections 1–4 from the menu.  This is the
spec's transition table, to be compared against the code's handlers. -/
def specListedTransition (g : GameState) (e : InputEvent) : Bool :=
  match e with
  | .key k =>
    if k = 27 then true
    else if k = 32 then g = GS_LEVEL_CLEAR ∨ g = GS_GAMEOVER
    else if k = 112 ∨ k = 80 then g = GS_PLAYING ∨ g = GS_PAUSED
    else if k = 114 ∨ k = 82 then g = GS_PLAYING ∨ g = GS_PAUSED
    else if k = 49 ∨ k = 50 ∨ k = 51 ∨ k = 52 then g = GS_MENU
    else false
  | _ => false

/-- The spec's transition table extended with the two transitions the code
actually performs but §4.4 does not list: the music-menu selections
`'1'`/`'2'` return from MusicMenu to Menu. -/
def listedTransitionAmended (g : GameState) (e : InputEvent) : Bool :=
  match e with
  | .key k =>
    if k = 27 then true
    else if k = 32 then g = GS_LEVEL_CLEAR ∨ g = GS_GAMEOVER
    else if k = 112 ∨ k = 80 then g = GS_PLAYING ∨ g = GS_PAUSED
    else if k = 114 ∨ k = 82 then g = GS_PLAYING ∨ g = GS_PAUSED
    else if k = 49 ∨ k = 50 then g = GS_MENU ∨ g = GS_MUSIC_MENU
    else if k = 51 ∨ k = 52 then g = GS_MENU
    else false
  | _ => false

/-- Number of residues of the `rand()%100` draw space that the level
generator maps to hit count 2 (the tough-brick fraction, out of 100). -/
def toughCount (level : ℤ) : ℕ :=
  (List.range 100).countP fun d => brickHitsOf level d == 2

/-- A concrete in-flight ball for witnesses and counterexamples. -/
def ball0 : Ball :=
  { x := 400, y := 300, vx := 0, vy := 380, radius := 8, speed := 380,
    stuck := false, isFireball := false, fireballTimer := 0 }

/-- The paddle as `resetPaddleAndBall` leaves it. -/
def paddle0 : Paddle := { x := 340, y := 50, w := 120, h := 16, speed := 600 }

/-- A concrete base world for witnesses and counterexamples. -/
def w0 : World :=
  { gameState := GS_MENU, currentLevel := 1, ball := ball0, paddle := paddle0,
    bricks := [], perks := [], projectiles := [], score := 0, lives := 3,
    highScore := 0, bricksRemaining := 1, fireCooldown := 0, keyLeft := false,
    keyRight := false, musicPlaying := false, recentScores := [], rng := [],
    exited := false }

/-- A brick whose box overlaps `ball0`. -/
def brickA : Brick :=
  { x := 370, y := 290, w := 60, h := 22, hits := 1, alive := true, type := 0 }

/-- A second brick, also overlapping `ball0`. -/
def brickB : Brick :=
  { x := 395, y := 290, w := 60, h := 22, hits := 1, alive := true, type := 0 }

/-- A playing world whose fireball overlaps two live bricks at once. -/
def wFire : World :=
  { w0 with gameState := GS_PLAYING,
            ball := { ball0 with isFireball := true },
            bricks := [brickA, brickB],
            bricksRemaining := 2 }

/-- A playing world with one live two-hit brick under the (normal) ball. -/
def wTough : World :=
  { w0 with gameState := GS_PLAYING,
            bricks := [{ brickA with hits := 2 }],
            bricksRemaining := 1,
            score := 7 }

/-- A playing world with one live one-hit brick under the (normal) ball. -/
def wWeak : World :=
  { w0 with gameState := GS_PLAYING,
            bricks := [brickA],
            bricksRemaining := 1,
            score := 7 }

/-- A playing world in which the ball has fallen below the floor. -/
def wMiss : World :=
  { w0 with gameState := GS_PLAYING,
            ball := { ball0 with y := 5 },
            bricks := [{ brickA with x := 100, y := 500 }] }

/-- An instant-death perk. -/
def perkDeath : Perk := { x := 400, y := 55, vy := -150, type := 5, alive := true }

/-!  ## Theorems  -/

theorem take_five_eq (s : ℤ) (l : List ℤ) :
    (if (s :: l).length > MAX_RECENT then (s :: l).take MAX_RECENT else s :: l) =
      (s :: l).take 5 := by
  by_cases h : (s :: l).length > MAX_RECENT
  · simp [h, MAX_RECENT]
  · rw [if_neg h, List.take_of_length_le]
    simpa [MAX_RECENT] using Nat.le_of_not_lt h

/-- Claim C8: saving a score prepends it to the recent-scores contents and
truncates to at most 5 entries; in particular saving 25 over
`[10, 20, 30, 40, 50]` yields `[25, 10, 20, 30, 40]`. -/
theorem C8_thm (w : World) :
    (saveScore w).recentScores = (w.score :: w.recentScores).take 5 ∧
    (saveScore { w0 with score := 25, recentScores := [10, 20, 30, 40, 50] }).recentScores =
      [25, 10, 20, 30, 40] := by
  constructor
  · show (if _ then _ else _) = _
    exact take_five_eq w.score w.recentScores
  · rfl

theorem countP_range_lt (c : ℤ) : ∀ n : ℕ,
    (List.range n).countP (fun d : ℕ => decide ((d : ℤ) < c)) = min c.toNat n := by
  intro n
  induction n with
  | zero => simp
  | succ n ih =>
    rw [List.range_succ, List.countP_append, ih]
    have hsing : (List.countP (fun d : ℕ => decide ((d : ℤ) < c)) [n]) =
        if (n : ℤ) < c then 1 else 0 := by
      simp [List.countP_cons]
    rw [hsing]
    by_cases h : (n : ℤ) < c
    · rw [if_pos h]; omega
    · rw [if_neg h]; omega

/-- Claim C2, counterexample: at level 2 the generator maps 15 of the 100
draw residues to hit count 2, whereas `min(0, L-1)*15%` is `0%`. -/
theorem C2_counterexample : toughCount 2 = 15 ∧ min 0 (2 - 1 : ℤ) * 15 = 0 := by
  constructor
  · decide
  · decide

/-- Claim C2, amended: for every level `L ≥ 1` the fraction of the
`rand()%100` draw space mapped to hit count 2 is `max(0, L-1)*15` percent,
saturating at 100 percent (the spec's `min` is a typo for `max`). -/
theorem C2_amended_thm (L : ℤ) (hL : 1 ≤ L) :
    toughCount L = min ((L - 1).toNat * 15) 100 := by
  unfold toughCount
  have h1 : ∀ d ∈ List.range 100,
      (brickHitsOf L d == 2) = decide ((d : ℤ) < (L - 1) * 15) := by
    intro d hd
    have hd' : d < 100 := List.mem_range.mp hd
    simp only [brickHitsOf, Nat.mod_eq_of_lt hd', max_eq_right (by omega : (0:ℤ) ≤ L - 1)]
    by_cases h : (d : ℤ) < (L - 1) * 15
    · simp [h]
    · simp [h]
  rw [List.countP_congr fun d hd => by rw [h1 d hd]]
  rw [countP_range_lt ((L - 1) * 15) 100]
  congr 1
  omega

theorem C2_amended_witness : toughCount 2 = min ((2 - 1 : ℤ).toNat * 15) 100 :=
  C2_amended_thm 2 (by decide)

theorem buildBricks_length (level : ℤ) (bw bh sy m g : ℝ) :
    ∀ (idx : List (ℕ × ℕ)) (rng : List ℕ),
      (buildBricks level bw bh sy m g idx rng).1.length = idx.length := by
  intro idx
  induction idx with
  | nil => intro rng; rfl
  | cons p rest ih =>
    intro rng
    obtain ⟨r, c⟩ := p
    simp [buildBricks, ih]

theorem buildBricks_alive (level : ℤ) (bw bh sy m g : ℝ) :
    ∀ (idx : List (ℕ × ℕ)) (rng : List ℕ),
      ∀ b ∈ (buildBricks level bw bh sy m g idx rng).1, b.alive = true := by
  intro idx
  induction idx with
  | nil => intro rng b hb; simp [buildBricks] at hb
  | cons p rest ih =>
    intro rng b hb
    obtain ⟨r, c⟩ := p
    simp only [buildBricks] at hb
    rcases List.mem_cons.mp hb with h | h
    · subst h; rfl
    · exact ih _ b h

theorem gridIndices_length (cols : ℕ) : ∀ rows : ℕ,
    (gridIndices rows cols).length = rows * cols := by
  intro rows
  induction rows with
  | zero => simp [gridIndices]
  | succ n ih =>
    unfold gridIndices at ih ⊢
    rw [List.range_succ, List.flatMap_append, List.length_append, ih]
    simp [Nat.succ_mul]

/-- Claim C3: for every level `L ≥ 1`, generation produces
`min(3+L, 8) × 10` bricks, all alive, and sets the bricks-remaining counter
to that same count. -/
theorem C3_thm (L : ℤ) (hL : 1 ≤ L) (w : World) :
    (createBricksForLevel L w).bricks.length = (min (3 + L) 8).toNat * 10 ∧
    (∀ b ∈ (createBricksForLevel L w).bricks, b.alive = true) ∧
    (createBricksForLevel L w).bricksRemaining =
      ((createBricksForLevel L w).bricks.length : ℤ) := by
  refine ⟨?_, ?_, ?_⟩
  · show (buildBricks _ _ _ _ _ _ _ _).1.length = _
    rw [buildBricks_length, gridIndices_length]
  · intro b hb
    exact buildBricks_alive _ _ _ _ _ _ _ _ b hb
  · rfl

theorem spawnPerk_proj (x y : ℝ) (w : World) :
    (spawnPerk x y w).score = w.score ∧
    (spawnPerk x y w).bricksRemaining = w.bricksRemaining ∧
    (spawnPerk x y w).ball = w.ball := by
  refine ⟨rfl, rfl, rfl⟩

theorem brickLoop_nil (w : World) : brickLoop w [] = ([], w) := rfl

theorem brickLoop_cons_skip (w : World) (b : Brick) (rest : List Brick)
    (h : b.alive = false ∨ ballHitsBrick w.ball b = false) :
    brickLoop w (b :: rest) = (b :: (brickLoop w rest).1, (brickLoop w rest).2) := by
  rcases hrec : brickLoop w rest with ⟨rest', w'⟩
  rcases h with h | h
  · simp [brickLoop, h, hrec]
  · by_cases ha : b.alive = false
    · simp [brickLoop, ha, hrec]
    · simp [brickLoop, ha, h, hrec]

theorem brickLoop_cons_hit (w : World) (b : Brick) (rest : List Brick)
    (ha : b.alive = true) (hh : ballHitsBrick w.ball b = true)
    (hfb : w.ball.isFireball = false) :
    brickLoop w (b :: rest) = ((hitBrick b w).1 :: rest, (hitBrick b w).2) := by
  rcases hB : hitBrick b w with ⟨b', w'⟩
  simp [brickLoop, ha, hh, hfb, hB]

theorem brickLoop_cons_fire (w : World) (b : Brick) (rest : List Brick)
    (ha : b.alive = true) (hh : ballHitsBrick w.ball b = true)
    (hfb : w.ball.isFireball = true) :
    brickLoop w (b :: rest) =
      ({ b with alive := false } :: (brickLoop (fireballDestroy b w) rest).1,
       (brickLoop (fireballDestroy b w) rest).2) := by
  rcases hrec : brickLoop (fireballDestroy b w) rest with ⟨rest', w'⟩
  simp [brickLoop, ha, hh, hfb, hrec]

theorem brickLoop_noHit (w : World) : ∀ bs : List Brick,
    (∀ b ∈ bs, b.alive = false ∨ ballHitsBrick w.ball b = false) →
    brickLoop w bs = (bs, w) := by
  intro bs
  induction bs with
  | nil => intro _; rfl
  | cons b rest ih =>
    intro h
    rw [brickLoop_cons_skip w b rest (h b (List.mem_cons_self b rest)),
        ih fun b' hb' => h b' (List.mem_cons_of_mem b hb')]

theorem brickLoop_first (w : World) (hfb : w.ball.isFireball = false) :
    ∀ (bs : List Brick) (i : ℕ) (b : Brick),
      bs[i]? = some b → b.alive = true → ballHitsBrick w.ball b = true →
      (∀ j, j < i → ∀ b', bs[j]? = some b' →
        b'.alive = false ∨ ballHitsBrick w.ball b' = false) →
      brickLoop w bs = (bs.take i ++ (hitBrick b w).1 :: bs.drop (i + 1), (hitBrick b w).2) := by
  intro bs
  induction bs with
  | nil => intro i b hget _ _ _; simp at hget
  | cons hd tl ih =>
    intro i b hget halive hhit hfirst
    cases i with
    | zero =>
      simp only [List.getElem?_cons_zero, Option.some_inj] at hget
      subst hget
      simpa using brickLoop_cons_hit w hd tl halive hhit hfb
    | succ i =>
      have hhd : hd.alive = false ∨ ballHitsBrick w.ball hd = false :=
        hfirst 0 (Nat.succ_pos i) hd (by simp)
      rw [brickLoop_cons_skip w hd tl hhd]
      have hrec := ih i b (by simpa using hget) halive hhit
        (fun j hj b' hb' => hfirst (j + 1) (Nat.succ_lt_succ hj) b' (by simpa using hb'))
      rw [hrec]
      simp [List.take_succ_cons, List.drop_succ_cons]

theorem hitBrick_spec (b : Brick) (w : World) :
    (b.hits = 2 →
      (hitBrick b w).1 = { b with hits := 1 } ∧
      (hitBrick b w).2.score = w.score + 5 ∧
      (hitBrick b w).2.bricksRemaining = w.bricksRemaining) ∧
    (b.hits = 1 →
      (hitBrick b w).1 = { b with hits := 0, alive := false } ∧
      (hitBrick b w).2.score = w.score + 10 ∧
      (hitBrick b w).2.bricksRemaining = w.bricksRemaining - 1) := by
  constructor
  · intro h2
    have hgt : ¬(b.hits - 1 ≤ 0) := by omega
    simp [hitBrick, hgt, h2]
  · intro h1
    have hle : b.hits - 1 ≤ 0 := by omega
    by_cases ht : b.type = 1
    · simp [hitBrick, hle, h1, ht, spawnPerk]
    · simp [hitBrick, hle, h1, ht]

/-- Claim C6: a first non-fireball collision with a two-hit brick leaves it
alive with one hit remaining and adds exactly 5 to the score with
bricks-remaining unchanged; a collision with a one-hit brick destroys it,
adds exactly 10, and decrements bricks-remaining.  The brick at index `i`
is the first live overlapping brick. -/
theorem C6_thm (w : World) (i : ℕ) (b : Brick)
    (hfb : w.ball.isFireball = false)
    (hget : w.bricks[i]? = some b)
    (halive : b.alive = true)
    (hhit : ballHitsBrick w.ball b = true)
    (hfirst : ∀ j, j < i → ∀ b', w.bricks[j]? = some b' →
        b'.alive = false ∨ ballHitsBrick w.ball b' = false) :
    (b.hits = 2 →
      (handleBrickCollisions w).bricks[i]? = some { b with hits := 1 } ∧
      Brick.alive { b with hits := (1 : ℤ) } = true ∧
      (handleBrickCollisions w).score = w.score + 5 ∧
      (handleBrickCollisions w).bricksRemaining = w.bricksRemaining) ∧
    (b.hits = 1 →
      (handleBrickCollisions w).bricks[i]? = some { b with hits := 0, alive := false } ∧
      (handleBrickCollisions w).score = w.score + 10 ∧
      (handleBrickCollisions w).bricksRemaining = w.bricksRemaining - 1) := by
  have hlen : i < w.bricks.length := by
    have := List.getElem?_eq_some.mp hget
    exact this.choose
  have hloop := brickLoop_first w hfb w.bricks i b hget halive hhit hfirst
  have hbricks : (handleBrickCollisions w).bricks =
      w.bricks.take i ++ (hitBrick b w).1 :: w.bricks.drop (i + 1) := by
    simp [handleBrickCollisions, hloop]
  have hworld : (handleBrickCollisions w).score = (hitBrick b w).2.score ∧
      (handleBrickCollisions w).bricksRemaining = (hitBrick b w).2.bricksRemaining := by
    constructor <;> simp [handleBrickCollisions, hloop]
  have hidx : ∀ b' : Brick,
      (w.bricks.take i ++ b' :: w.bricks.drop (i + 1))[i]? = some b' := by
    intro b'
    have hlt : (w.bricks.take i).length = i := by
      simp [List.length_take, Nat.min_eq_left (Nat.le_of_lt hlen)]
    rw [List.getElem?_append_right (by omega), hlt]
    simp
  have hspec := hitBrick_spec b w
  constructor
  · intro h2
    obtain ⟨hb', hs, hr⟩ := hspec.1 h2
    refine ⟨?_, by simpa using halive, hworld.1.trans hs, hworld.2.trans hr⟩
    rw [hbricks, hb']
    exact hidx _
  · intro h1
    obtain ⟨hb', hs, hr⟩ := hspec.2 h1
    refine ⟨?_, hworld.1.trans hs, hworld.2.trans hr⟩
    rw [hbricks, hb']
    exact hidx _

/-- Claim C1, counterexample: with the ball in fireball mode and two live
bricks both overlapping it, the pass destroys the second brick as well —
bricks other than the first overlapping one are *not* left unchanged, so
the stop-after-first policy does not hold "regardless of fireball mode". -/
theorem C1_counterexample :
    wFire.ball.isFireball = true ∧
    wFire.bricks = [brickA, brickB] ∧
    brickA.alive = true ∧ brickB.alive = true ∧
    ballHitsBrick wFire.ball brickA = true ∧
    ballHitsBrick wFire.ball brickB = true ∧
    ((handleBrickCollisions wFire).bricks[1]?).map Brick.alive = some false := by
  have hA : ballHitsBrick wFire.ball brickA = true := by
    norm_num [ballHitsBrick, wFire, w0, ball0, brickA]
  have hB : ballHitsBrick wFire.ball brickB = true := by
    norm_num [ballHitsBrick, wFire, w0, ball0, brickB]
  have hfd : (fireballDestroy brickA wFire).ball = wFire.ball := by
    norm_num [fireballDestroy, brickA]
  have hB' : ballHitsBrick (fireballDestroy brickA wFire).ball brickB = true := by
    rw [hfd]; exact hB
  have hfire1 : (fireballDestroy brickA wFire).ball.isFireball = true := by
    rw [hfd]; rfl
  have e1 := brickLoop_cons_fire wFire brickA [brickB] rfl hA rfl
  have e2 := brickLoop_cons_fire (fireballDestroy brickA wFire) brickB [] rfl hB' hfire1
  refine ⟨rfl, rfl, rfl, rfl, hA, hB, ?_⟩
  have hwb : wFire.bricks = [brickA, brickB] := rfl
  simp [handleBrickCollisions, hwb, e1, e2, brickLoop_nil]

/-- Claim C1, amended: with the ball *not* in fireball mode, at most the
first live overlapping brick is processed in a brick-collision pass (every
brick at another index is returned unchanged, and if no live brick overlaps
the ball the brick list is unchanged).  In fireball mode every overlapping
brick is destroyed in the same pass, as `C1_counterexample` exhibits. -/
theorem C1_amended_thm (w : World) (hfb : w.ball.isFireball = false) :
    (∀ (i : ℕ) (b : Brick), w.bricks[i]? = some b → b.alive = true →
        ballHitsBrick w.ball b = true →
        (∀ j, j < i → ∀ b', w.bricks[j]? = some b' →
          b'.alive = false ∨ ballHitsBrick w.ball b' = false) →
        ∀ j, j ≠ i → (handleBrickCollisions w).bricks[j]? = w.bricks[j]?) ∧
    ((∀ b' ∈ w.bricks, b'.alive = false ∨ ballHitsBrick w.ball b' = false) →
      (handleBrickCollisions w).bricks = w.bricks) := by
  constructor
  · intro i b hget halive hhit hfirst j hj
    have hlen : i < w.bricks.length := (List.getElem?_eq_some.mp hget).choose
    have hbricks : (handleBrickCollisions w).bricks =
        w.bricks.take i ++ (hitBrick b w).1 :: w.bricks.drop (i + 1) := by
      simp [handleBrickCollisions, brickLoop_first w hfb w.bricks i b hget halive hhit hfirst]
    rw [hbricks]
    have htl : (w.bricks.take i).length = i := by
      simp [List.length_take, Nat.min_eq_left (Nat.le_of_lt hlen)]
    rcases Nat.lt_or_ge j i with hlt | hge
    · rw [List.getElem?_append_left (by omega), List.getElem?_take_of_lt hlt]
    · have hgt : i < j := lt_of_le_of_ne hge (Ne.symm hj)
      rw [List.getElem?_append_right (by omega), htl]
      have hsub : j - i = (j - i - 1) + 1 := by omega
      rw [hsub, List.getElem?_cons_succ, List.getElem?_drop]
      congr 1
      omega
  · intro h
    simp [handleBrickCollisions, brickLoop_noHit w w.bricks h]

theorem C1_amended_witness :
    (handleBrickCollisions wWeak).bricks[1]? = wWeak.bricks[1]? := by
  have hA : ballHitsBrick wWeak.ball brickA = true := by
    norm_num [ballHitsBrick, wWeak, w0, ball0, brickA]
  exact (C1_amended_thm wWeak rfl).1 0 brickA rfl rfl hA
    (fun j hj b' _ => absurd hj (Nat.not_lt_zero j)) 1 (by decide)

theorem C6_witness :
    ((handleBrickCollisions wTough).bricks[0]? = some { brickA with hits := 1 } ∧
     (handleBrickCollisions wTough).score = 7 + 5 ∧
     (handleBrickCollisions wTough).bricksRemaining = wTough.bricksRemaining) ∧
    ((handleBrickCollisions wWeak).bricks[0]? =
        some { brickA with hits := 0, alive := false } ∧
     (handleBrickCollisions wWeak).score = 7 + 10 ∧
     (handleBrickCollisions wWeak).bricksRemaining = wWeak.bricksRemaining - 1) := by
  have hT : ballHitsBrick wTough.ball { brickA with hits := (2 : ℤ) } = true := by
    norm_num [ballHitsBrick, wTough, w0, ball0, brickA]
  have hW : ballHitsBrick wWeak.ball brickA = true := by
    norm_num [ballHitsBrick, wWeak, w0, ball0, brickA]
  constructor
  · have h := (C6_thm wTough 0 { brickA with hits := 2 } rfl rfl rfl hT
      (fun j hj b' _ => absurd hj (Nat.not_lt_zero j))).1 rfl
    exact ⟨h.1, h.2.2.1, h.2.2.2⟩
  · exact (C6_thm wWeak 0 brickA rfl rfl rfl hW
      (fun j hj b' _ => absurd hj (Nat.not_lt_zero j))).2 rfl

theorem C3_witness :
    (createBricksForLevel 1 w0).bricks.length = 40 ∧
    (∀ b ∈ (createBricksForLevel 1 w0).bricks, b.alive = true) ∧
    (createBricksForLevel 1 w0).bricksRemaining =
      ((createBricksForLevel 1 w0).bricks.length : ℤ) := by
  have h := C3_thm 1 (by decide) w0
  refine ⟨?_, h.2.1, h.2.2⟩
  rw [h.1]
  decide

/-- Claim C7, counterexample: from a freshly started game (paddle width
120), a single pointer-motion event to x = 0 puts the paddle at x = −60,
outside `[0, playfieldWidth − paddleWidth]` — `passiveMouse` does not clamp,
so the bound does not hold at all observable points. -/
theorem C7_counterexample :
    (startNewGame w0).gameState = GS_PLAYING ∧
    (handleEvent (InputEvent.motion 0 300) (startNewGame w0)).paddle.x < 0 := by
  have h1 : (startNewGame w0).gameState = GS_PLAYING := rfl
  have h2 : (startNewGame w0).paddle.w = 120 := rfl
  refine ⟨h1, ?_⟩
  show (passiveMouse 0 300 (startNewGame w0)).paddle.x < 0
  simp only [passiveMouse, h1, if_pos]
  rw [h2]
  norm_num

/-- Claim C7, amended: the per-tick paddle step of `updateGame` (input
displacement followed by the two clamps) leaves the paddle inside
`[0, playfieldWidth − paddleWidth]` for any held keys and any `dt`, provided
the paddle is no wider than the playfield; pointer motion, which bypasses
the clamp, can leave it outside until the next tick. -/
theorem C7_amended_thm (w : World) (dt : ℝ) (hw : w.paddle.w ≤ WIN_W) :
    0 ≤ (movePaddle dt w).paddle.x ∧
    (movePaddle dt w).paddle.x + (movePaddle dt w).paddle.w ≤ WIN_W := by
  rw [WIN_W] at hw ⊢
  simp only [movePaddle, WIN_W]
  split_ifs with h1 h2 h3 <;> constructor <;> linarith

theorem C7_amended_witness :
    0 ≤ (movePaddle 1 w0).paddle.x ∧
    (movePaddle 1 w0).paddle.x + (movePaddle 1 w0).paddle.w ≤ WIN_W :=
  C7_amended_thm w0 1 (by show (120 : ℝ) ≤ WIN_W; rw [WIN_W]; norm_num)

theorem launchBall_gameState (w : World) : (launchBall w).gameState = w.gameState := by
  unfold launchBall
  split_ifs <;> rfl

theorem startLevel_gameState (L : ℤ) (w : World) :
    (startLevel L w).gameState = GS_PLAYING := rfl

theorem startNewGame_gameState (w : World) :
    (startNewGame w).gameState = GS_PLAYING := rfl

/-- Claim C9, counterexample: pressing `'1'` in the music menu is not a
transition listed in the spec's §4.4 table, yet it changes the mode from
MusicMenu to Menu — it is not a no-op on the mode. -/
theorem C9_counterexample :
    specListedTransition GS_MUSIC_MENU (InputEvent.key 49) = false ∧
    (handleEvent (InputEvent.key 49)
        { w0 with gameState := GS_MUSIC_MENU }).gameState = GS_MENU ∧
    GS_MENU ≠ GS_MUSIC_MENU := by
  refine ⟨rfl, rfl, by decide⟩

/-- Claim C9, amended: with the transition table extended by the two
music-menu selections (`'1'`/`'2'`: MusicMenu → Menu), every input event
whose (mode, event) pair is not listed leaves the game mode unchanged. -/
theorem C9_amended_thm (w : World) (e : InputEvent)
    (h : listedTransitionAmended w.gameState e = false) :
    (handleEvent e w).gameState = w.gameState := by
  rcases e with k | k | k | k | ⟨b, st, x, y⟩ | ⟨x, y⟩
  case keyRelease =>
    show (keyboardUp k w).gameState = w.gameState
    unfold keyboardUp
    split_ifs <;> rfl
  case special =>
    show (specialDown k w).gameState = w.gameState
    unfold specialDown
    split_ifs <;> rfl
  case specialRelease =>
    show (specialUp k w).gameState = w.gameState
    unfold specialUp
    split_ifs <;> rfl
  case click =>
    show (mouseClick b st x y w).gameState = w.gameState
    unfold mouseClick
    split_ifs <;> rfl
  case motion =>
    show (passiveMouse x y w).gameState = w.gameState
    unfold passiveMouse
    split_ifs <;> rfl
  case key =>
  show (keyboardDown k w).gameState = w.gameState
  by_cases h27 : k = 27
  · subst h27; simp [listedTransitionAmended] at h
  by_cases h32 : k = 32
  · subst h32
    simp only [listedTransitionAmended] at h
    norm_num at h
    simp only [keyboardDown]
    norm_num
    split_ifs with h1 h2 h3 <;>
      simp_all [launchBall_gameState]
  by_cases hp : k = 112 ∨ k = 80
  · simp only [listedTransitionAmended] at h
    rcases hp with hp | hp <;> subst hp <;> norm_num at h <;>
      simp only [keyboardDown] <;> norm_num <;>
      split_ifs with h1 h2 <;> simp_all
  by_cases hr : k = 114 ∨ k = 82
  · simp only [listedTransitionAmended] at h
    rcases hr with hr | hr <;> subst hr <;> norm_num at h <;>
      simp only [keyboardDown] <;> norm_num <;>
      split_ifs with h1 <;> simp_all
  by_cases ha : k = 97 ∨ k = 65
  · rcases ha with ha | ha <;> subst ha <;> simp [keyboardDown]
  by_cases hd : k = 100 ∨ k = 68
  · rcases hd with hd | hd <;> subst hd <;> simp [keyboardDown]
  by_cases h49 : k = 49
  · subst h49
    simp only [listedTransitionAmended] at h
    norm_num at h
    simp only [keyboardDown]
    norm_num
    split_ifs with h1 h2 <;> simp_all
  by_cases h50 : k = 50
  · subst h50
    simp only [listedTransitionAmended] at h
    norm_num at h
    simp only [keyboardDown]
    norm_num
    split_ifs with h1 h2 <;> simp_all
  by_cases h51 : k = 51
  · subst h51
    simp only [listedTransitionAmended] at h
    norm_num at h
    simp only [keyboardDown]
    norm_num
    split_ifs with h1 h2 <;> simp_all
  by_cases h52 : k = 52
  · subst h52
    simp only [listedTransitionAmended] at h
    norm_num at h
    simp only [keyboardDown]
    norm_num
    split_ifs with h1 h2 <;> simp_all
  · simp only [keyboardDown, if_neg h27, if_neg h32, if_neg hp, if_neg hr,
      if_neg ha, if_neg hd]
    split_ifs with h1 h2 <;>
      simp_all [if_neg h49, if_neg h50, if_neg h51, if_neg h52]

theorem C9_amended_witness :
    (handleEvent (InputEvent.key 122) { w0 with gameState := GS_PLAYING }).gameState =
      GS_PLAYING :=
  C9_amended_thm { w0 with gameState := GS_PLAYING } (InputEvent.key 122) (by decide)

theorem tickTimers_meta (dt : ℝ) (w : World) :
    (tickTimers dt w).lives = w.lives ∧ (tickTimers dt w).score = w.score ∧
    (tickTimers dt w).recentScores = w.recentScores ∧
    (tickTimers dt w).highScore = w.highScore ∧
    (tickTimers dt w).bricks = w.bricks ∧ (tickTimers dt w).perks = w.perks ∧
    (tickTimers dt w).projectiles = w.projectiles ∧
    (tickTimers dt w).bricksRemaining = w.bricksRemaining := by
  unfold tickTimers
  dsimp only
  split_ifs <;> exact ⟨rfl, rfl, rfl, rfl, rfl, rfl, rfl, rfl⟩

theorem movePaddle_meta (dt : ℝ) (w : World) :
    (movePaddle dt w).lives = w.lives ∧ (movePaddle dt w).score = w.score ∧
    (movePaddle dt w).recentScores = w.recentScores ∧
    (movePaddle dt w).highScore = w.highScore ∧
    (movePaddle dt w).bricks = w.bricks ∧ (movePaddle dt w).perks = w.perks ∧
    (movePaddle dt w).projectiles = w.projectiles ∧
    (movePaddle dt w).bricksRemaining = w.bricksRemaining :=
  ⟨rfl, rfl, rfl, rfl, rfl, rfl, rfl, rfl⟩

theorem moveBall_meta (dt : ℝ) (w : World) :
    (moveBall dt w).lives = w.lives ∧ (moveBall dt w).score = w.score ∧
    (moveBall dt w).recentScores = w.recentScores ∧
    (moveBall dt w).highScore = w.highScore ∧
    (moveBall dt w).bricks = w.bricks ∧ (moveBall dt w).perks = w.perks ∧
    (moveBall dt w).projectiles = w.projectiles ∧
    (moveBall dt w).bricksRemaining = w.bricksRemaining := by
  unfold moveBall
  split_ifs <;> exact ⟨rfl, rfl, rfl, rfl, rfl, rfl, rfl, rfl⟩

theorem wall_meta (w : World) :
    (handleWallCollisions w).lives = w.lives ∧ (handleWallCollisions w).score = w.score ∧
    (handleWallCollisions w).recentScores = w.recentScores ∧
    (handleWallCollisions w).highScore = w.highScore ∧
    (handleWallCollisions w).bricks = w.bricks ∧
    (handleWallCollisions w).perks = w.perks ∧
    (handleWallCollisions w).projectiles = w.projectiles ∧
    (handleWallCollisions w).bricksRemaining = w.bricksRemaining := by
  unfold handleWallCollisions
  dsimp only
  split_ifs <;> exact ⟨rfl, rfl, rfl, rfl, rfl, rfl, rfl, rfl⟩

theorem tickPre_meta (dt : ℝ) (w : World) :
    (tickPre dt w).lives = w.lives ∧ (tickPre dt w).score = w.score ∧
    (tickPre dt w).recentScores = w.recentScores ∧
    (tickPre dt w).highScore = w.highScore ∧
    (tickPre dt w).bricks = w.bricks ∧ (tickPre dt w).perks = w.perks ∧
    (tickPre dt w).projectiles = w.projectiles ∧
    (tickPre dt w).bricksRemaining = w.bricksRemaining := by
  unfold tickPre
  obtain ⟨t1, t2, t3, t4, t5, t6, t7, t8⟩ := tickTimers_meta dt w
  obtain ⟨p1, p2, p3, p4, p5, p6, p7, p8⟩ := movePaddle_meta dt (tickTimers dt w)
  obtain ⟨m1, m2, m3, m4, m5, m6, m7, m8⟩ :=
    moveBall_meta dt (movePaddle dt (tickTimers dt w))
  obtain ⟨w1, w2, w3, w4, w5, w6, w7, w8⟩ :=
    wall_meta (moveBall dt (movePaddle dt (tickTimers dt w)))
  refine ⟨?_, ?_, ?_, ?_, ?_, ?_, ?_, ?_⟩ <;> simp_all

theorem saveHighScore_highScore (w : World) :
    (saveHighScore w).highScore = max w.highScore w.score := by
  unfold saveHighScore
  split_ifs with h
  · simp [max_eq_right (le_of_lt h)]
  · simp [max_eq_left (not_lt.mp h)]

theorem gameOverSave_spec (w : World) :
    (gameOverSave w).gameState = GS_GAMEOVER ∧
    (gameOverSave w).recentScores = (w.score :: w.recentScores).take 5 ∧
    (gameOverSave w).highScore = max w.highScore w.score ∧
    (gameOverSave w).lives = w.lives := by
  refine ⟨rfl, ?_, ?_, ?_⟩
  · show (saveHighScore (saveScore w)).recentScores = _
    unfold saveHighScore
    split_ifs <;> exact take_five_eq w.score w.recentScores
  · show (saveHighScore (saveScore w)).highScore = _
    rw [saveHighScore_highScore]
    rfl
  · show (saveHighScore (saveScore w)).lives = _
    unfold saveHighScore
    split_ifs <;> rfl

theorem resetPaddleAndBall_spec (w : World) :
    (resetPaddleAndBall w).ball.stuck = true ∧
    (resetPaddleAndBall w).paddle.w = 120 ∧
    (resetPaddleAndBall w).paddle.x = (WIN_W - 120) / 2 ∧
    (resetPaddleAndBall w).ball.speed = 380 ∧
    (resetPaddleAndBall w).lives = w.lives ∧
    (resetPaddleAndBall w).bricks = w.bricks ∧
    (resetPaddleAndBall w).score = w.score ∧
    (resetPaddleAndBall w).perks = w.perks ∧
    (resetPaddleAndBall w).projectiles = w.projectiles ∧
    (resetPaddleAndBall w).bricksRemaining = w.bricksRemaining :=
  ⟨rfl, rfl, rfl, rfl, rfl, rfl, rfl, rfl, rfl, rfl⟩

theorem missStep_branch (w : World) :
    (w.lives - 1 ≤ 0 → missStep w = gameOverSave { w with lives := w.lives - 1 }) ∧
    (¬(w.lives - 1 ≤ 0) → missStep w = resetPaddleAndBall { w with lives := w.lives - 1 }) := by
  constructor <;> intro h <;> unfold missStep <;>
    first
    | rw [if_pos (show World.lives { w with lives := w.lives - 1 } ≤ 0 from h)]
    | rw [if_neg (show ¬World.lives { w with lives := w.lives - 1 } ≤ 0 from h)]

theorem updateGame_miss (dt : ℝ) (w : World) (hplay : w.gameState = GS_PLAYING)
    (hmiss : (tickPre dt w).ball.y - (tickPre dt w).ball.radius ≤ 0) :
    updateGame dt w = missStep (tickPre dt w) := by
  unfold updateGame
  rw [if_neg (by simp [hplay]), if_pos hmiss]

theorem applyPerk_death (p : Perk) (w : World) (hp : p.type = 5) :
    (applyPerk p w).2 =
      if w.lives - 1 ≤ 0 then gameOverSave { w with lives := w.lives - 1 }
      else resetPaddleAndBall { w with lives := w.lives - 1 } := by
  simp only [applyPerk, hp]
  norm_num

/-- Claim C5: when lives reach ≤ 0 — by a ball miss during the tick or by a
death-type perk — the score is persisted to the recent-scores contents and
the high score, and the mode becomes game-over; with lives remaining the
paddle and ball are reset instead (ball re-attached), and in the ball-miss
case the tick ends early with no further collision processing. -/
theorem C5_thm (w : World) (dt : ℝ) (p : Perk)
    (hplay : w.gameState = GS_PLAYING)
    (hmiss : (tickPre dt w).ball.y - (tickPre dt w).ball.radius ≤ 0)
    (hp : p.type = 5) :
    updateGame dt w = missStep (tickPre dt w) ∧
    (w.lives ≤ 1 →
      (updateGame dt w).gameState = GS_GAMEOVER ∧
      (updateGame dt w).recentScores = (w.score :: w.recentScores).take 5 ∧
      (updateGame dt w).highScore = max w.highScore w.score) ∧
    (1 < w.lives →
      (updateGame dt w).ball.stuck = true ∧
      (updateGame dt w).lives = w.lives - 1 ∧
      (updateGame dt w).bricks = w.bricks ∧
      (updateGame dt w).score = w.score ∧
      (updateGame dt w).perks = w.perks ∧
      (updateGame dt w).projectiles = w.projectiles ∧
      (updateGame dt w).bricksRemaining = w.bricksRemaining) ∧
    (w.lives ≤ 1 →
      (applyPerk p w).2.gameState = GS_GAMEOVER ∧
      (applyPerk p w).2.recentScores = (w.score :: w.recentScores).take 5 ∧
      (applyPerk p w).2.highScore = max w.highScore w.score) ∧
    (1 < w.lives →
      (applyPerk p w).2.ball.stuck = true ∧
      (applyPerk p w).2.lives = w.lives - 1) := by
  have hupd := updateGame_miss dt w hplay hmiss
  obtain ⟨t1, t2, t3, t4, t5, t6, t7, t8⟩ := tickPre_meta dt w
  refine ⟨hupd, ?_, ?_, ?_, ?_⟩
  · intro hl
    have hbr := (missStep_branch (tickPre dt w)).1 (by omega)
    rw [hupd, hbr]
    obtain ⟨g1, g2, g3, g4⟩ :=
      gameOverSave_spec { tickPre dt w with lives := (tickPre dt w).lives - 1 }
    exact ⟨g1, by rw [g2]; simp [t2, t3], by rw [g3]; simp [t2, t4]⟩
  · intro hl
    have hbr := (missStep_branch (tickPre dt w)).2 (by omega)
    rw [hupd, hbr]
    obtain ⟨r1, r2, r3, r4, r5, r6, r7, r8, r9, r10⟩ :=
      resetPaddleAndBall_spec { tickPre dt w with lives := (tickPre dt w).lives - 1 }
    refine ⟨r1, ?_, ?_, ?_, ?_, ?_, ?_⟩ <;> simp_all
  · intro hl
    rw [applyPerk_death p w hp, if_pos (show w.lives - 1 ≤ 0 by omega)]
    obtain ⟨g1, g2, g3, g4⟩ := gameOverSave_spec { w with lives := w.lives - 1 }
    exact ⟨g1, g2, g3⟩
  · intro hl
    rw [applyPerk_death p w hp, if_neg (show ¬w.lives - 1 ≤ 0 by omega)]
    obtain ⟨r1, r2, r3, r4, r5, r6, r7, r8, r9, r10⟩ :=
      resetPaddleAndBall_spec { w with lives := w.lives - 1 }
    exact ⟨r1, r5⟩

/-- Claim C10: a life loss that does not end the game — ball miss with lives
remaining or a death perk with lives remaining — resets the paddle width to
120 and the ball's base speed to 380 (and re-attaches the ball),
unconditionally discarding accumulated width/speed perk effects and the
level's speed scaling. -/
theorem C10_thm (w : World) (dt : ℝ) (p : Perk)
    (hplay : w.gameState = GS_PLAYING)
    (hmiss : (tickPre dt w).ball.y - (tickPre dt w).ball.radius ≤ 0)
    (hp : p.type = 5)
    (hlives : 1 < w.lives) :
    ((updateGame dt w).paddle.w = 120 ∧
     (updateGame dt w).ball.speed = 380 ∧
     (updateGame dt w).ball.stuck = true) ∧
    ((applyPerk p w).2.paddle.w = 120 ∧
     (applyPerk p w).2.ball.speed = 380 ∧
     (applyPerk p w).2.ball.stuck = true) := by
  obtain ⟨t1, t2, t3, t4, t5, t6, t7, t8⟩ := tickPre_meta dt w
  constructor
  · have hbr := (missStep_branch (tickPre dt w)).2 (by omega)
    rw [updateGame_miss dt w hplay hmiss, hbr]
    obtain ⟨r1, r2, r3, r4, _⟩ :=
      resetPaddleAndBall_spec { tickPre dt w with lives := (tickPre dt w).lives - 1 }
    exact ⟨r2, r4, r1⟩
  · rw [applyPerk_death p w hp, if_neg (show ¬w.lives - 1 ≤ 0 by omega)]
    obtain ⟨r1, r2, r3, r4, _⟩ := resetPaddleAndBall_spec { w with lives := w.lives - 1 }
    exact ⟨r2, r4, r1⟩

theorem wMiss_tickPre_ball :
    (tickPre 0 wMiss).ball.y = 5 ∧ (tickPre 0 wMiss).ball.radius = 8 := by
  norm_num [tickPre, tickTimers, movePaddle, moveBall, handleWallCollisions,
    wMiss, w0, ball0, paddle0, WIN_W, WIN_H]

theorem C5_witness :
    (updateGame 0 wMiss).ball.stuck = true ∧
    (updateGame 0 wMiss).lives = wMiss.lives - 1 ∧
    (updateGame 0 wMiss).bricks = wMiss.bricks ∧
    (updateGame 0 wMiss).score = wMiss.score ∧
    (applyPerk perkDeath wMiss).2.ball.stuck = true := by
  have hmiss : (tickPre 0 wMiss).ball.y - (tickPre 0 wMiss).ball.radius ≤ 0 := by
    rw [wMiss_tickPre_ball.1, wMiss_tickPre_ball.2]
    norm_num
  obtain ⟨-, -, hreset, -, hperk⟩ := C5_thm wMiss 0 perkDeath rfl hmiss rfl
  have hl : (1 : ℤ) < wMiss.lives := by decide
  exact ⟨(hreset hl).1, (hreset hl).2.1, (hreset hl).2.2.1, (hreset hl).2.2.2.1,
    (hperk hl).1⟩

theorem C10_witness :
    ((updateGame 0 wMiss).paddle.w = 120 ∧
     (updateGame 0 wMiss).ball.speed = 380 ∧
     (updateGame 0 wMiss).ball.stuck = true) ∧
    ((applyPerk perkDeath wMiss).2.paddle.w = 120 ∧
     (applyPerk perkDeath wMiss).2.ball.speed = 380 ∧
     (applyPerk perkDeath wMiss).2.ball.stuck = true) := by
  have hmiss : (tickPre 0 wMiss).ball.y - (tickPre 0 wMiss).ball.radius ≤ 0 := by
    rw [wMiss_tickPre_ball.1, wMiss_tickPre_ball.2]
    norm_num
  exact C10_thm wMiss 0 perkDeath rfl hmiss rfl (by decide)

theorem tickTimers_ball (dt : ℝ) (w : World) :
    (tickTimers dt w).ball.vx = w.ball.vx ∧ (tickTimers dt w).ball.vy = w.ball.vy ∧
    (tickTimers dt w).ball.speed = w.ball.speed ∧
    (tickTimers dt w).ball.stuck = w.ball.stuck := by
  unfold tickTimers
  dsimp only
  split_ifs <;> exact ⟨rfl, rfl, rfl, rfl⟩

theorem movePaddle_ball (dt : ℝ) (w : World) : (movePaddle dt w).ball = w.ball := rfl

theorem moveBall_ball (dt : ℝ) (w : World) :
    (moveBall dt w).ball.vx = w.ball.vx ∧ (moveBall dt w).ball.vy = w.ball.vy ∧
    (moveBall dt w).ball.speed = w.ball.speed ∧
    (moveBall dt w).ball.stuck = w.ball.stuck := by
  unfold moveBall
  split_ifs <;> exact ⟨rfl, rfl, rfl, rfl⟩

theorem wall_ball (w : World) :
    (handleWallCollisions w).ball.vx * (handleWallCollisions w).ball.vx +
        (handleWallCollisions w).ball.vy * (handleWallCollisions w).ball.vy =
      w.ball.vx * w.ball.vx + w.ball.vy * w.ball.vy ∧
    (handleWallCollisions w).ball.speed = w.ball.speed ∧
    (handleWallCollisions w).ball.stuck = w.ball.stuck := by
  unfold handleWallCollisions
  dsimp only
  split_ifs <;> refine ⟨by ring, rfl, rfl⟩

theorem tickPre_ball (dt : ℝ) (w : World) :
    (tickPre dt w).ball.vx * (tickPre dt w).ball.vx +
        (tickPre dt w).ball.vy * (tickPre dt w).ball.vy =
      w.ball.vx * w.ball.vx + w.ball.vy * w.ball.vy ∧
    (tickPre dt w).ball.speed = w.ball.speed ∧
    (tickPre dt w).ball.stuck = w.ball.stuck := by
  unfold tickPre
  obtain ⟨t1, t2, t3, t4⟩ := tickTimers_ball dt w
  have hp := movePaddle_ball dt (tickTimers dt w)
  obtain ⟨m1, m2, m3, m4⟩ := moveBall_ball dt (movePaddle dt (tickTimers dt w))
  obtain ⟨v1, v2, v3⟩ := wall_ball (moveBall dt (movePaddle dt (tickTimers dt w)))
  rw [v1, v2, v3, m1, m2, m3, m4, hp, t1, t2, t3, t4]
  exact ⟨rfl, rfl, rfl⟩

theorem paddleCollision_ball (w : World)
    (hinv : w.ball.vx * w.ball.vx + w.ball.vy * w.ball.vy =
      w.ball.speed * w.ball.speed) :
    (handlePaddleCollision w).ball.vx * (handlePaddleCollision w).ball.vx +
        (handlePaddleCollision w).ball.vy * (handlePaddleCollision w).ball.vy =
      (handlePaddleCollision w).ball.speed * (handlePaddleCollision w).ball.speed ∧
    (handlePaddleCollision w).ball.speed = w.ball.speed ∧
    (handlePaddleCollision w).ball.stuck = w.ball.stuck := by
  unfold handlePaddleCollision bounceBallOffPaddle
  split_ifs
  · dsimp only
    refine ⟨?_, rfl, rfl⟩
    have h := Real.sin_sq_add_cos_sq
      (Real.pi / 2 + (w.ball.x - (w.paddle.x + w.paddle.w * 0.5)) / (w.paddle.w * 0.5) *
        (75 * Real.pi / 180))
    linear_combination (w.ball.speed * w.ball.speed) * h
  · exact ⟨hinv, rfl, rfl⟩

theorem hitBrick_ball (b : Brick) (w : World) :
    (hitBrick b w).2.ball.vx * (hitBrick b w).2.ball.vx +
        (hitBrick b w).2.ball.vy * (hitBrick b w).2.ball.vy =
      w.ball.vx * w.ball.vx + w.ball.vy * w.ball.vy ∧
    (hitBrick b w).2.ball.speed = w.ball.speed ∧
    (hitBrick b w).2.ball.stuck = w.ball.stuck := by
  have hsp : ∀ (x y : ℝ) (v : World), (spawnPerk x y v).ball = v.ball := fun _ _ _ => rfl
  unfold hitBrick
  dsimp only
  split_ifs <;> refine ⟨?_, ?_, ?_⟩ <;> simp only [hsp] <;> first | rfl | ring

theorem fireballDestroy_ball (b : Brick) (w : World) :
    (fireballDestroy b w).ball = w.ball := by
  unfold fireballDestroy
  split_ifs <;> rfl

theorem brickLoop_ball : ∀ (bs : List Brick) (w : World),
    (brickLoop w bs).2.ball.vx * (brickLoop w bs).2.ball.vx +
        (brickLoop w bs).2.ball.vy * (brickLoop w bs).2.ball.vy =
      w.ball.vx * w.ball.vx + w.ball.vy * w.ball.vy ∧
    (brickLoop w bs).2.ball.speed = w.ball.speed ∧
    (brickLoop w bs).2.ball.stuck = w.ball.stuck := by
  intro bs
  induction bs with
  | nil => intro w; exact ⟨rfl, rfl, rfl⟩
  | cons b rest ih =>
    intro w
    by_cases ha : b.alive = false
    · rw [brickLoop_cons_skip w b rest (Or.inl ha)]
      exact ih w
    · have ha' : b.alive = true := by simp at ha; exact ha
      by_cases hh : ballHitsBrick w.ball b = true
      · by_cases hf : w.ball.isFireball = true
        · rw [brickLoop_cons_fire w b rest ha' hh hf]
          obtain ⟨i1, i2, i3⟩ := ih (fireballDestroy b w)
          rw [show (brickLoop (fireballDestroy b w) rest).2 =
            ({ b with alive := false } :: (brickLoop (fireballDestroy b w) rest).1,
              (brickLoop (fireballDestroy b w) rest).2).2 from rfl] at i1 i2 i3 ⊢
          rw [i1, i2, i3, fireballDestroy_ball]
          exact ⟨rfl, rfl, rfl⟩
        · have hf' : w.ball.isFireball = false := by simp at hf; exact hf
          rw [brickLoop_cons_hit w b rest ha' hh hf']
          exact hitBrick_ball b w
      · have hh' : ballHitsBrick w.ball b = false := by simp at hh; exact hh
        rw [brickLoop_cons_skip w b rest (Or.inr hh')]
        exact ih w

theorem handleBrickCollisions_ball (w : World)
    (hinv : w.ball.vx * w.ball.vx + w.ball.vy * w.ball.vy =
      w.ball.speed * w.ball.speed) :
    (handleBrickCollisions w).ball.vx * (handleBrickCollisions w).ball.vx +
        (handleBrickCollisions w).ball.vy * (handleBrickCollisions w).ball.vy =
      (handleBrickCollisions w).ball.speed * (handleBrickCollisions w).ball.speed ∧
    (handleBrickCollisions w).ball.speed = w.ball.speed ∧
    (handleBrickCollisions w).ball.stuck = w.ball.stuck := by
  obtain ⟨b1, b2, b3⟩ := brickLoop_ball w.bricks w
  have hb : (handleBrickCollisions w).ball = (brickLoop w w.bricks).2.ball := rfl
  rw [hb, b1, b2, b3]
  exact ⟨hinv, rfl, rfl⟩

theorem gameOverSave_ball (w : World) : (gameOverSave w).ball = w.ball := by
  show (saveHighScore (saveScore w)).ball = w.ball
  unfold saveHighScore saveScore
  split_ifs <;> rfl

theorem applyPerk_ball (p : Perk) (w : World) :
    ((applyPerk p w).2.ball.stuck = w.ball.stuck ∧
     (applyPerk p w).2.ball.vx * (applyPerk p w).2.ball.vx +
        (applyPerk p w).2.ball.vy * (applyPerk p w).2.ball.vy =
      w.ball.vx * w.ball.vx + w.ball.vy * w.ball.vy ∧
     (0 < w.ball.speed → 0 < (applyPerk p w).2.ball.speed)) ∨
    (applyPerk p w).2.ball.stuck = true := by
  by_cases h5 : p.type = 5
  · rw [applyPerk_death p w h5]
    split_ifs with hl
    · refine Or.inl ⟨?_, ?_, fun h => ?_⟩
      · rw [gameOverSave_ball]
      · rw [gameOverSave_ball]
      · rw [gameOverSave_ball]
        exact h
    · exact Or.inr (resetPaddleAndBall_spec _).1
  by_cases h2 : p.type = 2
  · have hn0 : ¬p.type = 0 := by omega
    have hn1 : ¬p.type = 1 := by omega
    have he : (applyPerk p w).2 =
        { w with ball := { w.ball with
            speed := if w.ball.speed * 1.15 > BALL_SPEED_MAX then BALL_SPEED_MAX
              else w.ball.speed * 1.15 } } := by
      simp [applyPerk, hn0, hn1, h2]
    rw [he]
    refine Or.inl ⟨rfl, rfl, fun h => ?_⟩
    show (0 : ℝ) < if w.ball.speed * 1.15 > BALL_SPEED_MAX then BALL_SPEED_MAX
      else w.ball.speed * 1.15
    rw [BALL_SPEED_MAX]
    split_ifs <;> nlinarith
  · refine Or.inl ⟨?_, ?_, fun h => ?_⟩ <;>
      (unfold applyPerk; dsimp only; split_ifs) <;>
      first
      | rfl
      | exact h
      | exact absurd (by assumption : p.type = 2) h2
      | exact absurd (by assumption : p.type = 5) h5

theorem perkLoop_cons_dead (dt : ℝ) (w : World) (p : Perk) (rest : List Perk)
    (h : p.alive = false) :
    perkLoop dt w (p :: rest) =
      (p :: (perkLoop dt w rest).1, (perkLoop dt w rest).2) := by
  rcases hrec : perkLoop dt w rest with ⟨a, b⟩
  simp [perkLoop, h, hrec]

theorem perkLoop_cons_caught (dt : ℝ) (w : World) (p : Perk) (rest : List Perk)
    (ha : p.alive = true) (hc : perkCaught (perkMove dt p) w.paddle = true) :
    perkLoop dt w (p :: rest) =
      ((applyPerk (perkMove dt p) w).1 ::
          (perkLoop dt (applyPerk (perkMove dt p) w).2 rest).1,
        (perkLoop dt (applyPerk (perkMove dt p) w).2 rest).2) := by
  rcases hap : applyPerk (perkMove dt p) w with ⟨p3, w1⟩
  rcases hrec : perkLoop dt w1 rest with ⟨a, b⟩
  simp [perkLoop, ha, hc, hap, hrec]

theorem perkLoop_cons_uncaught (dt : ℝ) (w : World) (p : Perk) (rest : List Perk)
    (ha : p.alive = true) (hc : perkCaught (perkMove dt p) w.paddle = false) :
    perkLoop dt w (p :: rest) =
      (perkMove dt p :: (perkLoop dt w rest).1, (perkLoop dt w rest).2) := by
  rcases hrec : perkLoop dt w rest with ⟨a, b⟩
  simp [perkLoop, ha, hc, hrec]

theorem perkLoop_ball (dt : ℝ) : ∀ (ps : List Perk) (w : World),
    ((perkLoop dt w ps).2.ball.stuck = w.ball.stuck ∧
     (perkLoop dt w ps).2.ball.vx * (perkLoop dt w ps).2.ball.vx +
        (perkLoop dt w ps).2.ball.vy * (perkLoop dt w ps).2.ball.vy =
      w.ball.vx * w.ball.vx + w.ball.vy * w.ball.vy ∧
     (0 < w.ball.speed → 0 < (perkLoop dt w ps).2.ball.speed)) ∨
    (perkLoop dt w ps).2.ball.stuck = true := by
  intro ps
  induction ps with
  | nil => intro w; exact Or.inl ⟨rfl, rfl, fun h => h⟩
  | cons p rest ih =>
    intro w
    by_cases hd : p.alive = false
    · rw [perkLoop_cons_dead dt w p rest hd]
      exact ih w
    · have ha : p.alive = true := by simp at hd; exact hd
      by_cases hc : perkCaught (perkMove dt p) w.paddle = true
      · rw [perkLoop_cons_caught dt w p rest ha hc]
        rcases applyPerk_ball (perkMove dt p) w with ⟨a1, a2, a3⟩ | hstk
        · rcases ih (applyPerk (perkMove dt p) w).2 with ⟨i1, i2, i3⟩ | histk
          · exact Or.inl ⟨i1.trans a1, i2.trans a2, fun h => i3 (a3 h)⟩
          · exact Or.inr histk
        · rcases ih (applyPerk (perkMove dt p) w).2 with ⟨i1, i2, i3⟩ | histk
          · exact Or.inr (i1.trans hstk)
          · exact Or.inr histk
      · have hc' : perkCaught (perkMove dt p) w.paddle = false := by
          simp at hc; exact hc
        rw [perkLoop_cons_uncaught dt w p rest ha hc']
        exact ih w

theorem handlePerks_ball (dt : ℝ) (w : World) :
    ((handlePerks dt w).ball.stuck = w.ball.stuck ∧
     (handlePerks dt w).ball.vx * (handlePerks dt w).ball.vx +
        (handlePerks dt w).ball.vy * (handlePerks dt w).ball.vy =
      w.ball.vx * w.ball.vx + w.ball.vy * w.ball.vy ∧
     (0 < w.ball.speed → 0 < (handlePerks dt w).ball.speed)) ∨
    (handlePerks dt w).ball.stuck = true := by
  have hb : (handlePerks dt w).ball = (perkLoop dt w w.perks).2.ball := rfl
  rw [hb]
  exact perkLoop_ball dt w.perks w

theorem projBrickLoop_ball (p : Projectile) : ∀ (bs : List Brick) (w : World),
    (projBrickLoop p w bs).2.2.ball = w.ball := by
  intro bs
  induction bs with
  | nil => intro w; rfl
  | cons b rest ih =>
    intro w
    show (projBrickLoop p w (b :: rest)).2.2.ball = w.ball
    unfold projBrickLoop
    dsimp only
    split_ifs with h1 h2 h3
    · show (spawnPerk _ _ _).ball = w.ball
      rfl
    · rfl
    · rfl
    · rcases hrec : projBrickLoop p w rest with ⟨a, pr, ww⟩
      have h2 : ww.ball = w.ball := by
        have h3 := ih w
        rw [hrec] at h3
        simpa using h3
      simp [hrec, h2]

theorem projLoop_ball (dt : ℝ) : ∀ (ps : List Projectile) (w : World),
    (projLoop dt w ps).2.ball = w.ball := by
  intro ps
  induction ps with
  | nil => intro w; rfl
  | cons p rest ih =>
    intro w
    by_cases hd : p.alive = false
    · rcases hrec : projLoop dt w rest with ⟨a, ww⟩
      have h2 : ww.ball = w.ball := by
        have h3 := ih w
        rw [hrec] at h3
        simpa using h3
      simp [projLoop, hd, hrec, h2]
    · rcases hbl : projBrickLoop (projMove dt p) w w.bricks with ⟨bs, p3, w1⟩
      have h1 : w1.ball = w.ball := by
        have h3 := projBrickLoop_ball (projMove dt p) w.bricks w
        rw [hbl] at h3
        simpa using h3
      rcases hrec : projLoop dt { w1 with bricks := bs } rest with ⟨a, ww⟩
      have h2 : ww.ball = w1.ball := by
        have h3 := ih { w1 with bricks := bs }
        rw [hrec] at h3
        simpa using h3
      rw [show projLoop dt w (p :: rest) = (p3 :: a, ww) from by
        simp [projLoop, hd, hbl, hrec]]
      exact h2.trans h1

theorem handleProjectiles_ball (dt : ℝ) (w : World) :
    (handleProjectiles dt w).ball = w.ball := by
  have hb : (handleProjectiles dt w).ball = (projLoop dt w w.projectiles).2.ball := rfl
  rw [hb, projLoop_ball dt w.projectiles w]

theorem increase_stuck (dt : ℝ) (w : World) (h : w.ball.stuck = true) :
    increaseBallSpeedOverTime dt w = w := by
  unfold increaseBallSpeedOverTime
  rw [if_neg (by rw [h]; simp)]

theorem increase_spec (dt : ℝ) (w : World) (hstuck : w.ball.stuck = false)
    (hsq : 0 < w.ball.vx * w.ball.vx + w.ball.vy * w.ball.vy)
    (hbig : 0.0001 < Real.sqrt (w.ball.vx * w.ball.vx + w.ball.vy * w.ball.vy))
    (hsp : 0 < w.ball.speed) (hdt : 0 ≤ dt) :
    (increaseBallSpeedOverTime dt w).ball.vx * (increaseBallSpeedOverTime dt w).ball.vx +
        (increaseBallSpeedOverTime dt w).ball.vy *
          (increaseBallSpeedOverTime dt w).ball.vy =
      (increaseBallSpeedOverTime dt w).ball.speed *
        (increaseBallSpeedOverTime dt w).ball.speed ∧
    0 < (increaseBallSpeedOverTime dt w).ball.speed ∧
    (increaseBallSpeedOverTime dt w).ball.stuck = false := by
  unfold increaseBallSpeedOverTime normalizeBallVelocity
  rw [if_pos hstuck]
  dsimp only
  rw [if_pos hbig]
  dsimp only
  refine ⟨?_, ?_, hstuck⟩
  · generalize (if w.ball.speed + BALL_SPEED_INCREASE_RATE * dt > BALL_SPEED_MAX then
      BALL_SPEED_MAX else w.ball.speed + BALL_SPEED_INCREASE_RATE * dt) = s'
    have hm : Real.sqrt (w.ball.vx * w.ball.vx + w.ball.vy * w.ball.vy) *
        Real.sqrt (w.ball.vx * w.ball.vx + w.ball.vy * w.ball.vy) =
        w.ball.vx * w.ball.vx + w.ball.vy * w.ball.vy :=
      Real.mul_self_sqrt hsq.le
    have hr : Real.sqrt (w.ball.vx * w.ball.vx + w.ball.vy * w.ball.vy) ≠ 0 := by
      have hpos : (0 : ℝ) < Real.sqrt (w.ball.vx * w.ball.vx + w.ball.vy * w.ball.vy) := by
        have h4 : (0 : ℝ) < 0.0001 := by norm_num
        linarith
      exact ne_of_gt hpos
    field_simp
    ring
  · show (0 : ℝ) < if w.ball.speed + BALL_SPEED_INCREASE_RATE * dt > BALL_SPEED_MAX
      then BALL_SPEED_MAX else w.ball.speed + BALL_SPEED_INCREASE_RATE * dt
    rw [BALL_SPEED_MAX, BALL_SPEED_INCREASE_RATE]
    have h5 : (0 : ℝ) ≤ 5 * dt := by linarith
    split_ifs with hcap
    · norm_num
    · linarith

/-- Claim C4: on every playing tick in which the ball is in flight, the
post-tick velocity magnitude equals the post-tick `ball.speed` (assuming
the invariant held before the tick); a tick that re-attaches the ball
(`stuck = true`) is the only exception.  Stated over the real-valued model,
where the float computation is exact. -/
theorem C4_thm (w : World) (dt : ℝ)
    (hplay : w.gameState = GS_PLAYING)
    (hstuck : w.ball.stuck = false)
    (hinv : w.ball.vx * w.ball.vx + w.ball.vy * w.ball.vy =
      w.ball.speed * w.ball.speed)
    (hsp : 0.0001 < w.ball.speed)
    (hdt : 0 ≤ dt) :
    (updateGame dt w).ball.stuck = true ∨
    Real.sqrt ((updateGame dt w).ball.vx * (updateGame dt w).ball.vx +
        (updateGame dt w).ball.vy * (updateGame dt w).ball.vy) =
      (updateGame dt w).ball.speed := by
  have h4 : (0 : ℝ) < 0.0001 := by norm_num
  have hsp0 : (0 : ℝ) < w.ball.speed := by linarith
  obtain ⟨t1, t2, t3⟩ := tickPre_ball dt w
  have hne : ¬(w.gameState ≠ GS_PLAYING) := by simp [hplay]
  unfold updateGame
  rw [if_neg hne]
  dsimp only
  by_cases hmiss : (tickPre dt w).ball.y - (tickPre dt w).ball.radius ≤ 0
  · rw [if_pos hmiss]
    unfold missStep
    dsimp only
    split_ifs with hl
    · right
      rw [gameOverSave_ball]
      show Real.sqrt ((tickPre dt w).ball.vx * (tickPre dt w).ball.vx +
          (tickPre dt w).ball.vy * (tickPre dt w).ball.vy) = (tickPre dt w).ball.speed
      rw [t1, hinv, t2]
      exact Real.sqrt_mul_self hsp0.le
    · left
      exact (resetPaddleAndBall_spec _).1
  · rw [if_neg hmiss]
    set W1 := tickPre dt w with hW1
    have hinv1 : W1.ball.vx * W1.ball.vx + W1.ball.vy * W1.ball.vy =
        W1.ball.speed * W1.ball.speed := by rw [t1, t2, hinv]
    have hstuck1 : W1.ball.stuck = false := by rw [t3, hstuck]
    have hsp1 : (0 : ℝ) < W1.ball.speed := by rw [t2]; exact hsp0
    obtain ⟨p1, p2, p3⟩ := paddleCollision_ball W1 hinv1
    set W2 := handlePaddleCollision W1 with hW2
    obtain ⟨b1, b2, b3⟩ := handleBrickCollisions_ball W2 p1
    set W3 := handleBrickCollisions W2 with hW3
    have hstuck3 : W3.ball.stuck = false := by rw [b3, p3, hstuck1]
    have hsp3 : (0 : ℝ) < W3.ball.speed := by rw [b2, p2]; exact hsp1
    set W4 := handlePerks dt W3 with hW4
    have hsv : ∀ v : World, World.ball { saveScore v with gameState := GS_LEVEL_CLEAR } =
        v.ball := fun _ => rfl
    rcases handlePerks_ball dt W3 with ⟨k1, k2, k3⟩ | kstuck
    · set W5 := handleProjectiles dt W4 with hW5
      have hb5 : W5.ball = W4.ball := handleProjectiles_ball dt W4
      have hstuck5 : W5.ball.stuck = false := by rw [hb5, k1, hstuck3]
      have hsq5 : W5.ball.vx * W5.ball.vx + W5.ball.vy * W5.ball.vy =
          W3.ball.speed * W3.ball.speed := by rw [hb5, k2, b1]
      have hpos5 : (0 : ℝ) < W5.ball.speed := by rw [hb5]; exact k3 hsp3
      have hsqpos : (0 : ℝ) < W5.ball.vx * W5.ball.vx + W5.ball.vy * W5.ball.vy := by
        rw [hsq5]
        exact mul_pos hsp3 hsp3
      have hbig : (0.0001 : ℝ) <
          Real.sqrt (W5.ball.vx * W5.ball.vx + W5.ball.vy * W5.ball.vy) := by
        rw [hsq5, Real.sqrt_mul_self hsp3.le, b2, p2, t2]
        exact hsp
      obtain ⟨i1, i2, i3⟩ := increase_spec dt W5 hstuck5 hsqpos hbig hpos5 hdt
      set W6 := increaseBallSpeedOverTime dt W5 with hW6
      by_cases hbr : W6.bricksRemaining ≤ 0
      · rw [if_pos hbr]
        right
        rw [hsv W6, i1]
        exact Real.sqrt_mul_self i2.le
      · rw [if_neg hbr]
        right
        rw [i1]
        exact Real.sqrt_mul_self i2.le
    · set W5 := handleProjectiles dt W4 with hW5
      have hb5 : W5.ball = W4.ball := handleProjectiles_ball dt W4
      have hstuck5 : W5.ball.stuck = true := by rw [hb5, kstuck]
      have h6 : increaseBallSpeedOverTime dt W5 = W5 := increase_stuck dt W5 hstuck5
      by_cases hbr : (increaseBallSpeedOverTime dt W5).bricksRemaining ≤ 0
      · rw [if_pos hbr]
        left
        rw [hsv, h6]
        exact hstuck5
      · rw [if_neg hbr]
        left
        rw [h6]
        exact hstuck5

theorem C4_witness :
    (updateGame 0 { w0 with gameState := GS_PLAYING }).ball.stuck = true ∨
    Real.sqrt ((updateGame 0 { w0 with gameState := GS_PLAYING }).ball.vx *
        (updateGame 0 { w0 with gameState := GS_PLAYING }).ball.vx +
        (updateGame 0 { w0 with gameState := GS_PLAYING }).ball.vy *
        (updateGame 0 { w0 with gameState := GS_PLAYING }).ball.vy) =
      (updateGame 0 { w0 with gameState := GS_PLAYING }).ball.speed :=
  C4_thm { w0 with gameState := GS_PLAYING } 0 rfl rfl
    (by norm_num [w0, ball0]) (by norm_num [w0, ball0]) le_rfl

end

end DXBall
